import Mathlib

/-!
Shallow embedding of the authentication and session-issuance flow of the
NestJS admin API (`mohammadZqili/nest-js`): password hashing, token
issuance and verification, the auth service's `login` / `register`
operations, and the guard wiring of the `AuthController`
(`src/src/app.service.ts`, `AuthController`).

The auth module implementation files (auth service, passport strategies,
users service, hasher) are not present in the repository snapshot; only
the controller that calls them is. Those operations are therefore
modelled from the specification (`spec.md` §§3, 4.1–4.4, 7), as marked on
each definition.
-/

namespace NestAuth

/-- Roles recognized by the system: the enumerated values `admin` and `user`. -/
inductive Role
  | admin
  | user
deriving DecidableEq

/-- Numeric encoding of a string, used by the modelled hasher and signer
as an abstract stand-in for byte-level serialization. -/
def encodeStr (s : String) : Nat :=
  s.data.foldl (fun a c => a * 1114112 + c.toNat + 1) 1

/-- A stored password digest: the salt drawn at hash time together with
the salted hash value. -/
structure Digest where
  salt : Nat
  val : Nat
deriving DecidableEq

namespace Hasher

/-- Modelled from the spec: Password Hasher `hash(plaintext) -> digest`
(§4.1), a one-way transform whose randomization is made explicit as a
`salt` parameter; the digest records the salt so `verify` can recompute. -/
def hash (salt : Nat) (plaintext : String) : Digest :=
  ⟨salt, encodeStr plaintext + salt⟩

/-- Modelled from the spec: Password Hasher `verify(plaintext, digest) -> bool`
(§4.1); recomputes the salted hash and compares. -/
def verify (plaintext : String) (d : Digest) : Bool :=
  encodeStr plaintext + d.salt == d.val

end Hasher

/-- Modelled from the spec: the signed token payload
`{sub: identifier, role, iat: now, exp: now + ttl}` (§4.2). -/
structure Payload where
  sub : String
  role : Role
  iat : Nat
  exp : Nat
deriving DecidableEq

/-- Numeric tag of a role, used by payload serialization. -/
def encodeRole : Role → Nat
  | .admin => 0
  | .user => 1

/-- Numeric serialization of a payload, input to the modelled signer. -/
def encodePayload (p : Payload) : Nat :=
  encodeStr p.sub + 3 * encodeRole p.role + 5 * p.iat + 7 * p.exp

/-- Modelled from the spec: the keyed signature over the payload (§4.2,
"signing is deterministic given payload+secret+algorithm"), abstracted as
a deterministic function of secret and payload producing a fixed-length
byte list, so that byte-level tampering can be expressed. -/
def sigBytes (secret : Nat) (p : Payload) : List Nat :=
  (List.range 8).map fun i => (secret + 1) * (encodePayload p + 1) / 256 ^ i % 256

/-- A session token: the payload plus the signature bytes over it. -/
structure Token where
  payload : Payload
  sig : List Nat
deriving DecidableEq

/-- Modelled from the spec: Token Issuer `issue(identifier, role) -> token`
(§4.2), building the signed payload `{sub, role, iat: now, exp: now + ttl}`
with the server-held secret. -/
def issue (secret ttl : Nat) (identifier : String) (role : Role) (now : Nat) : Token :=
  let p : Payload := ⟨identifier, role, now, now + ttl⟩
  ⟨p, sigBytes secret p⟩

/-- The error taxonomy of §7. -/
inductive AuthError
  | InvalidCredentials
  | DuplicateIdentifier
  | Malformed
  | Expired
  | MissingCredentials
  | StoreUnavailable
deriving DecidableEq

/-- User-safe message for each error kind (§7: `InvalidCredentials`
deliberately collapses two internal causes into one external message). -/
def errMessage : AuthError → String
  | .InvalidCredentials => "Invalid credentials"
  | .DuplicateIdentifier => "Identifier already exists"
  | .Malformed => "Malformed token"
  | .Expired => "Token expired"
  | .MissingCredentials => "Missing credentials"
  | .StoreUnavailable => "Store unavailable"

/-- The authenticated principal `{identifier, role}` derived from a valid
token (§3). -/
structure Principal where
  identifier : String
  role : Role
deriving DecidableEq

/-- Modelled from the spec: Token Verifier `verify(token)` (§4.3): checks
the signature against the server secret, then `exp <= now` (→ `Expired`),
and on success returns the Principal; signature mismatch → `Malformed`. -/
def verifyToken (secret : Nat) (t : Token) (now : Nat) : Except AuthError Principal :=
  if t.sig = sigBytes secret t.payload then
    if t.payload.exp ≤ now then Except.error AuthError.Expired
    else Except.ok ⟨t.payload.sub, t.payload.role⟩
  else Except.error AuthError.Malformed

/-- A persisted credential record (§3): identifier, hashed secret, role,
active flag. -/
structure CredentialRecord where
  identifier : String
  hashedSecret : Digest
  role : Role
  active : Bool
deriving DecidableEq

/-- The Credential Store state: the list of persisted records. -/
abbrev Store := List CredentialRecord

/-- Modelled from the spec: Credential Store `findByIdentifier(id)` (§6). -/
def findByIdentifier (s : Store) (identifier : String) : Option CredentialRecord :=
  s.find? fun r => r.identifier == identifier

/-- Modelled from the spec: the credential validation performed by the
local strategy before the login handler (§4.4 steps 1–3): lookup by
identifier (not-found → `InvalidCredentials`), inactive record →
`InvalidCredentials`, digest mismatch → `InvalidCredentials`. -/
def validateUser (s : Store) (identifier plaintext : String) : Except AuthError CredentialRecord :=
  match findByIdentifier s identifier with
  | none => Except.error AuthError.InvalidCredentials
  | some r =>
    if r.active = false then Except.error AuthError.InvalidCredentials
    else if Hasher.verify plaintext r.hashedSecret = false then
      Except.error AuthError.InvalidCredentials
    else Except.ok r

/-- Modelled from the spec: `login(identifier, plaintext)` (§4.4): on all
credential checks passing, call the Token Issuer with the record's
identifier and role and return the token. -/
def login (s : Store) (secret ttl : Nat) (identifier plaintext : String) (now : Nat) :
    Except AuthError Token :=
  match validateUser s identifier plaintext with
  | Except.error e => Except.error e
  | Except.ok r => Except.ok (issue secret ttl r.identifier r.role now)

/-- Modelled from the spec: `register(identifier, plaintext, role)` (§4.4):
reject an existing identifier with `DuplicateIdentifier`, otherwise hash
the plaintext and persist a new active record, returning the Principal. -/
def register (s : Store) (identifier plaintext : String) (role : Role) (salt : Nat) :
    Except AuthError Principal × Store :=
  match findByIdentifier s identifier with
  | some _ => (Except.error AuthError.DuplicateIdentifier, s)
  | none =>
    (Except.ok ⟨identifier, role⟩,
      s ++ [⟨identifier, Hasher.hash salt plaintext, role, true⟩])

/-- `AuthController.getProfile` (`src/src/app.service.ts`): returns the
request's already-verified user unchanged (`return req.user`). -/
def getProfile (p : Principal) : Principal := p

/-- Modelled from the spec: the JWT guard on a protected route (§4.3): no
token presented → `MissingCredentials`; otherwise the Token Verifier runs
on the presented token. -/
def jwtGuard (secret : Nat) (authHeader : Option Token) (now : Nat) :
    Except AuthError Principal :=
  match authHeader with
  | none => Except.error AuthError.MissingCredentials
  | some t => verifyToken secret t now

/-- Modelled from the spec: guard-then-handler composition on a protected
route (§4.3): on guard failure the request is rejected and the handler is
not consulted; on success the handler receives the derived Principal. -/
def protectedRoute {α : Type} (secret : Nat) (authHeader : Option Token) (now : Nat)
    (handler : Principal → α) : Except AuthError α :=
  match jwtGuard secret authHeader now with
  | Except.error e => Except.error e
  | Except.ok p => Except.ok (handler p)

/-- The profile endpoint: JWT guard composed with `getProfile`
(`@UseGuards(AuthGuard('jwt'))` on `AuthController.getProfile`). -/
def profileRoute (secret : Nat) (authHeader : Option Token) (now : Nat) :
    Except AuthError Principal :=
  protectedRoute secret authHeader now getProfile

/-- The register endpoint: `AuthController.register` carries no guard, so
the Authorization header is never consulted and `register` always runs. -/
def registerRoute (s : Store) (authHeader : Option Token) (identifier plaintext : String)
    (role : Role) (salt : Nat) : Except AuthError Principal × Store :=
  register s identifier plaintext role salt

/-- One client operation against the auth service. -/
inductive Op
  | doRegister (identifier plaintext : String) (role : Role) (salt : Nat)
  | doLogin (identifier plaintext : String) (now : Nat)

/-- Store transition of one operation: only `register` mutates the store. -/
def stepStore (s : Store) : Op → Store
  | Op.doRegister identifier plaintext role salt => (register s identifier plaintext role salt).2
  | Op.doLogin _ _ _ => s

/-- A recorded issuance: the token, the store state at issuance time, and
the plaintext presented at that login. -/
structure Issuance where
  token : Token
  storeAt : Store
  presented : String
deriving DecidableEq

/-- Tokens issued by a single operation: a successful login issues one. -/
def issuedBy (secret ttl : Nat) (s : Store) : Op → List Issuance
  | Op.doLogin identifier plaintext now =>
    match login s secret ttl identifier plaintext now with
    | Except.ok t => [⟨t, s, plaintext⟩]
    | Except.error _ => []
  | Op.doRegister _ _ _ _ => []

/-- Runs a trace of operations from a store state: final store plus the
log of every issuance along the way. -/
def runTrace (secret ttl : Nat) (s : Store) : List Op → Store × List Issuance
  | [] => (s, [])
  | op :: rest =>
    let tail := runTrace secret ttl (stepStore s op) rest
    (tail.1, issuedBy secret ttl s op ++ tail.2)

/-- Modelled from the spec: the Token Verifier as seen from a request
context that also holds the Credential Store; per the stateless trust
boundary of §3 it never consults the store. -/
def verifyInContext (s : Store) (secret : Nat) (t : Token) (now : Nat) :
    Except AuthError Principal :=
  verifyToken secret t now

/-! Helper lemmas shared by several claims. -/

/-- The hasher round-trips: a digest produced from a plaintext verifies
against that plaintext. -/
theorem hasher_verify_hash (salt : Nat) (plaintext : String) :
    Hasher.verify plaintext (Hasher.hash salt plaintext) = true := by
  simp [Hasher.verify, Hasher.hash]

/-- Appending a record whose identifier was absent makes the lookup find it. -/
theorem findByIdentifier_append_single (s : Store) (r : CredentialRecord)
    (h : findByIdentifier s r.identifier = none) :
    findByIdentifier (s ++ [r]) r.identifier = some r := by
  unfold findByIdentifier at h ⊢
  rw [List.find?_append, h]
  simp [List.find?]

/-- A record found by identifier lookup carries that identifier. -/
theorem identifier_of_find (s : Store) (identifier : String) (r : CredentialRecord)
    (h : findByIdentifier s identifier = some r) : r.identifier = identifier := by
  have hp := List.find?_some h
  simpa using hp

/-- Setting one position of a list to a different value changes the list. -/
theorem set_ne_self_of_ne (l : List Nat) (i b : Nat) (hi : i < l.length)
    (hb : b ≠ l.get ⟨i, hi⟩) : l.set i b ≠ l := by
  induction l generalizing i with
  | nil => simp at hi
  | cons x xs ih =>
    cases i with
    | zero =>
      intro he
      simp only [List.set, List.cons.injEq] at he
      exact hb (by simpa using he.1)
    | succ i =>
      intro he
      simp only [List.set, List.cons.injEq] at he
      exact ih i (by simpa using hi) (by simpa using hb) he.2

/-- A credential record accepted by the local validation was found in the
store, is active, and its digest verifies the presented plaintext. -/
theorem validateUser_ok_inv (s : Store) (identifier plaintext : String)
    (r : CredentialRecord) (h : validateUser s identifier plaintext = Except.ok r) :
    findByIdentifier s identifier = some r ∧ r.active = true ∧
      Hasher.verify plaintext r.hashedSecret = true := by
  unfold validateUser at h
  split at h
  · exact absurd h (by simp)
  · rename_i q hf
    split at h
    · exact absurd h (by simp)
    · split at h
      · exact absurd h (by simp)
      · rename_i ha hv
        cases h
        exact ⟨hf, by simpa using ha, by simpa using hv⟩

/-- A successful login pins down the record it drew the token from: it was
found in the store, active, and its digest verified the presented plaintext;
the token's subject and role are the record's. -/
theorem login_ok_inv (s : Store) (secret ttl : Nat) (identifier plaintext : String)
    (now : Nat) (t : Token) (h : login s secret ttl identifier plaintext now = Except.ok t) :
    ∃ r, findByIdentifier s t.payload.sub = some r ∧ r.active = true ∧
      Hasher.verify plaintext r.hashedSecret = true ∧ t.payload.role = r.role := by
  unfold login at h
  split at h
  · exact absurd h (by simp)
  · rename_i r hv
    obtain ⟨hf, ha, hvr⟩ := validateUser_ok_inv s identifier plaintext r hv
    cases h
    refine ⟨r, ?_, ha, hvr, rfl⟩
    have hsub : (issue secret ttl r.identifier r.role now).payload.sub = r.identifier := rfl
    rw [hsub, identifier_of_find s identifier r hf]
    exact hf

/-- Verification of a freshly issued token before its expiry returns the
Principal that was encoded. -/
theorem verify_issue_ok (secret ttl : Nat) (identifier : String) (role : Role)
    (now now2 : Nat) (h : now2 < now + ttl) :
    verifyToken secret (issue secret ttl identifier role now) now2
      = Except.ok ⟨identifier, role⟩ := by
  unfold verifyToken issue
  simp only []
  rw [if_pos trivial, if_neg (by omega)]

/-! Claim theorems. -/

/-- C1: for every identifier and role, a token produced by `issue` at time
`now` verifies successfully at any time before `now + TTL`, yielding the
Principal with the same identifier and role. -/
theorem issue_verify_round_trip (secret ttl : Nat) (identifier : String) (role : Role)
    (now now2 : Nat) (h : now2 < now + ttl) :
    verifyToken secret (issue secret ttl identifier role now) now2
      = Except.ok ⟨identifier, role⟩ :=
  verify_issue_ok secret ttl identifier role now now2 h

/-- C1 witness: concrete issue/verify round trip. -/
theorem issue_verify_round_trip_witness :
    0 < 0 + 1 ∧
      verifyToken 0 (issue 0 1 "a" Role.user 0) 0 = Except.ok ⟨"a", Role.user⟩ :=
  ⟨by decide, issue_verify_round_trip 0 1 "a" Role.user 0 0 (by decide)⟩

/-- C4: a token issued at `now` with TTL `ttl` fails verification with the
`Expired` kind at every time `now2` with `now + ttl ≤ now2` — in particular
at every time strictly greater than `now + ttl`, and at exactly `now + ttl`
(the verifier's condition is `exp <= now`). -/
theorem verify_expired (secret ttl : Nat) (identifier : String) (role : Role)
    (now now2 : Nat) (h : now + ttl ≤ now2) :
    verifyToken secret (issue secret ttl identifier role now) now2
      = Except.error AuthError.Expired := by
  unfold verifyToken issue
  simp only []
  rw [if_pos trivial, if_pos (by omega)]

/-- C4 witness: concrete expiry, both strictly past and at the boundary. -/
theorem verify_expired_witness :
    0 + 1 ≤ 1 ∧
      verifyToken 0 (issue 0 1 "a" Role.user 0) 1 = Except.error AuthError.Expired :=
  ⟨by decide, verify_expired 0 1 "a" Role.user 0 1 (by decide)⟩

/-- A token with one signature byte set to a different value: the payload
is unchanged, only the signature portion is altered. -/
def alterSigByte (t : Token) (i b : Nat) : Token :=
  ⟨t.payload, t.sig.set i b⟩

/-- C5: altering any single byte of an issued token's signature portion to
a different value makes verification return `Malformed` at every time — a
tampered token is never accepted as a Principal. -/
theorem altered_sig_malformed (secret ttl : Nat) (identifier : String) (role : Role)
    (now now2 i b : Nat)
    (hi : i < (issue secret ttl identifier role now).sig.length)
    (hb : b ≠ (issue secret ttl identifier role now).sig.get ⟨i, hi⟩) :
    verifyToken secret (alterSigByte (issue secret ttl identifier role now) i b) now2
      = Except.error AuthError.Malformed := by
  unfold verifyToken alterSigByte
  rw [if_neg]
  exact set_ne_self_of_ne _ i b hi hb

/-- C5 witness: a concrete single-byte alteration is rejected as Malformed. -/
theorem altered_sig_malformed_witness :
    verifyToken 0 (alterSigByte (issue 0 1 "a" Role.user 0) 0 256) 0
      = Except.error AuthError.Malformed :=
  altered_sig_malformed 0 1 "a" Role.user 0 0 0 256 (by decide) (by decide)

/-- C3: a login with an existing identifier but a non-matching secret and a
login with an absent identifier both return `InvalidCredentials`, and their
externally visible messages coincide — the two causes are indistinguishable. -/
theorem enumeration_resistance (s : Store) (secret ttl now : Nat)
    (id1 pw1 id2 pw2 : String) (r : CredentialRecord)
    (h1 : findByIdentifier s id1 = some r)
    (h2 : Hasher.verify pw1 r.hashedSecret = false)
    (h3 : findByIdentifier s id2 = none) :
    login s secret ttl id1 pw1 now = Except.error AuthError.InvalidCredentials ∧
    login s secret ttl id2 pw2 now = Except.error AuthError.InvalidCredentials ∧
    (login s secret ttl id1 pw1 now).mapError errMessage
      = (login s secret ttl id2 pw2 now).mapError errMessage := by
  have v1 : validateUser s id1 pw1 = Except.error AuthError.InvalidCredentials := by
    simp only [validateUser, h1]
    by_cases ha : r.active = false
    · rw [if_pos ha]
    · rw [if_neg ha, if_pos h2]
  have e1 : login s secret ttl id1 pw1 now = Except.error AuthError.InvalidCredentials := by
    unfold login
    rw [v1]
  have e2 : login s secret ttl id2 pw2 now = Except.error AuthError.InvalidCredentials := by
    unfold login validateUser
    rw [h3]
  exact ⟨e1, e2, by rw [e1, e2]⟩

/-- C3 witness: a concrete store where the wrong-password login and the
unknown-identifier login are indistinguishable. -/
theorem enumeration_resistance_witness :
    login [⟨"a", Hasher.hash 0 "pw", Role.user, true⟩] 0 1 "a" "x" 0
        = Except.error AuthError.InvalidCredentials ∧
    login [⟨"a", Hasher.hash 0 "pw", Role.user, true⟩] 0 1 "b" "y" 0
        = Except.error AuthError.InvalidCredentials ∧
    (login [⟨"a", Hasher.hash 0 "pw", Role.user, true⟩] 0 1 "a" "x" 0).mapError errMessage
      = (login [⟨"a", Hasher.hash 0 "pw", Role.user, true⟩] 0 1 "b" "y" 0).mapError errMessage :=
  enumeration_resistance [⟨"a", Hasher.hash 0 "pw", Role.user, true⟩] 0 1 0 "a" "x" "b" "y"
    ⟨"a", Hasher.hash 0 "pw", Role.user, true⟩ (by decide) (by decide) (by decide)

/-- C6: registering the same identifier twice (from a store holding at most
one record for it) yields `DuplicateIdentifier` on the second call, leaves
the store unchanged by the second call, and ends with exactly one record
for that identifier. -/
theorem duplicate_register (s : Store) (identifier pw1 pw2 : String) (role1 role2 : Role)
    (salt1 salt2 : Nat)
    (h : (s.filter fun r => r.identifier == identifier).length ≤ 1) :
    (register ((register s identifier pw1 role1 salt1).2) identifier pw2 role2 salt2).1
        = Except.error AuthError.DuplicateIdentifier ∧
    (register ((register s identifier pw1 role1 salt1).2) identifier pw2 role2 salt2).2
        = (register s identifier pw1 role1 salt1).2 ∧
    (((register ((register s identifier pw1 role1 salt1).2) identifier pw2 role2 salt2).2).filter
        fun r => r.identifier == identifier).length = 1 := by
  cases hf : findByIdentifier s identifier with
  | none =>
    have hall := List.find?_eq_none.mp hf
    have h0 : s.filter (fun r => r.identifier == identifier) = [] :=
      List.filter_eq_nil_iff.mpr hall
    have e1 : register s identifier pw1 role1 salt1
        = (Except.ok ⟨identifier, role1⟩,
            s ++ [⟨identifier, Hasher.hash salt1 pw1, role1, true⟩]) := by
      unfold register; rw [hf]
    have hfind : findByIdentifier (s ++ [⟨identifier, Hasher.hash salt1 pw1, role1, true⟩])
        identifier = some ⟨identifier, Hasher.hash salt1 pw1, role1, true⟩ :=
      findByIdentifier_append_single s ⟨identifier, Hasher.hash salt1 pw1, role1, true⟩ hf
    have e2 : register (s ++ [⟨identifier, Hasher.hash salt1 pw1, role1, true⟩])
        identifier pw2 role2 salt2
        = (Except.error AuthError.DuplicateIdentifier,
            s ++ [⟨identifier, Hasher.hash salt1 pw1, role1, true⟩]) := by
      unfold register; rw [hfind]
    rw [e1]
    refine ⟨by rw [e2], by rw [e2], ?_⟩
    rw [e2]
    show ((s ++ [(⟨identifier, Hasher.hash salt1 pw1, role1, true⟩ : CredentialRecord)]).filter
        fun r => r.identifier == identifier).length = 1
    rw [List.filter_append, h0]
    simp [List.filter]
  | some r =>
    have e1 : register s identifier pw1 role1 salt1
        = (Except.error AuthError.DuplicateIdentifier, s) := by
      unfold register; rw [hf]
    have e2 : register s identifier pw2 role2 salt2
        = (Except.error AuthError.DuplicateIdentifier, s) := by
      unfold register; rw [hf]
    have hf2 : s.find? (fun x => x.identifier == identifier) = some r := hf
    have hmemS : r ∈ s := List.mem_of_find?_eq_some hf2
    have hpr : (r.identifier == identifier) = true := by simpa using List.find?_some hf2
    have hmem : r ∈ s.filter fun x => x.identifier == identifier :=
      List.mem_filter.mpr ⟨hmemS, hpr⟩
    have hpos : 0 < (s.filter fun x => x.identifier == identifier).length :=
      List.length_pos.mpr (List.ne_nil_of_mem hmem)
    have hone : (s.filter fun x => x.identifier == identifier).length = 1 :=
      Nat.le_antisymm h hpos
    rw [e1]
    exact ⟨by rw [e2], by rw [e2], by rw [e2]; exact hone⟩

/-- C6 witness: a concrete double registration of the same identifier. -/
theorem duplicate_register_witness :
    (register ((register [] "a" "x" Role.user 0).2) "a" "y" Role.admin 1).1
        = Except.error AuthError.DuplicateIdentifier ∧
    (register ((register [] "a" "x" Role.user 0).2) "a" "y" Role.admin 1).2
        = (register [] "a" "x" Role.user 0).2 ∧
    (((register ((register [] "a" "x" Role.user 0).2) "a" "y" Role.admin 1).2).filter
        fun r => r.identifier == "a").length = 1 :=
  duplicate_register [] "a" "x" "y" Role.user Role.admin 0 1 (by decide)

/-- C7: a `register` accepted for a fresh identifier is followed by a
successful `login` with the same pair, whose token verifies to the same
identifier and role. -/
theorem register_login_round_trip (s : Store) (identifier pw : String) (role : Role)
    (salt secret ttl now : Nat)
    (hf : findByIdentifier s identifier = none) (ht : 0 < ttl) :
    (register s identifier pw role salt).1 = Except.ok ⟨identifier, role⟩ ∧
    login (register s identifier pw role salt).2 secret ttl identifier pw now
        = Except.ok (issue secret ttl identifier role now) ∧
    verifyToken secret (issue secret ttl identifier role now) now
        = Except.ok ⟨identifier, role⟩ := by
  have e1 : register s identifier pw role salt
      = (Except.ok ⟨identifier, role⟩,
          s ++ [⟨identifier, Hasher.hash salt pw, role, true⟩]) := by
    unfold register; rw [hf]
  have hfind : findByIdentifier (s ++ [⟨identifier, Hasher.hash salt pw, role, true⟩])
      identifier = some ⟨identifier, Hasher.hash salt pw, role, true⟩ :=
    findByIdentifier_append_single s ⟨identifier, Hasher.hash salt pw, role, true⟩ hf
  refine ⟨by rw [e1], ?_, verify_issue_ok secret ttl identifier role now now (by omega)⟩
  rw [e1]
  show login (s ++ [⟨identifier, Hasher.hash salt pw, role, true⟩]) secret ttl identifier pw now
      = Except.ok (issue secret ttl identifier role now)
  unfold login validateUser
  rw [hfind]
  simp [hasher_verify_hash]

/-- C7 witness: a concrete register-then-login round trip. -/
theorem register_login_round_trip_witness :
    (register [] "a" "b" Role.user 0).1 = Except.ok ⟨"a", Role.user⟩ ∧
    login (register [] "a" "b" Role.user 0).2 0 1 "a" "b" 0
        = Except.ok (issue 0 1 "a" Role.user 0) ∧
    verifyToken 0 (issue 0 1 "a" Role.user 0) 0 = Except.ok ⟨"a", Role.user⟩ :=
  register_login_round_trip [] "a" "b" Role.user 0 0 1 0 (by decide) (by decide)

/-- C2: along every trace of register/login operations, every issued token
encodes a record that, in the store state at issuance time, existed, was
active, and whose digest verified the presented plaintext; and token
verification in a request context is independent of the store. -/
theorem issued_tokens_invariant :
    (∀ (ops : List Op) (secret ttl : Nat) (s : Store) (e : Issuance),
        e ∈ (runTrace secret ttl s ops).2 →
        ∃ r, findByIdentifier e.storeAt e.token.payload.sub = some r ∧
          r.active = true ∧ Hasher.verify e.presented r.hashedSecret = true ∧
          e.token.payload.role = r.role) ∧
    (∀ (s1 s2 : Store) (secret : Nat) (t : Token) (now : Nat),
        verifyInContext s1 secret t now = verifyInContext s2 secret t now) := by
  constructor
  · intro ops
    induction ops with
    | nil =>
      intro secret ttl s e he
      simp [runTrace] at he
    | cons op rest ih =>
      intro secret ttl s e he
      simp only [runTrace, List.mem_append] at he
      cases he with
      | inr hmem => exact ih secret ttl (stepStore s op) e hmem
      | inl hmem =>
        cases op with
        | doRegister a b c d => simp [issuedBy] at hmem
        | doLogin identifier plaintext now =>
          simp only [issuedBy] at hmem
          cases hl : login s secret ttl identifier plaintext now with
          | error err => rw [hl] at hmem; simp at hmem
          | ok t =>
            rw [hl] at hmem
            simp at hmem
            subst hmem
            exact login_ok_inv s secret ttl identifier plaintext now t hl
  · intro s1 s2 secret t now
    rfl

/-- C2 witness: a concrete trace (register then login) whose one issuance
satisfies the invariant. -/
theorem issued_tokens_invariant_witness :
    ∃ r, findByIdentifier [(⟨"a", Hasher.hash 0 "b", Role.user, true⟩ : CredentialRecord)]
          (issue 0 1 "a" Role.user 0).payload.sub = some r ∧
        r.active = true ∧ Hasher.verify "b" r.hashedSecret = true ∧
        (issue 0 1 "a" Role.user 0).payload.role = r.role :=
  issued_tokens_invariant.1
    [Op.doRegister "a" "b" Role.user 0, Op.doLogin "a" "b" 0] 0 1 []
    ⟨issue 0 1 "a" Role.user 0, [⟨"a", Hasher.hash 0 "b", Role.user, true⟩], "b"⟩
    (by decide)

/-- C8: the profile handler is a pure pass-through — it returns the
already-verified request principal unchanged, and the route returns
exactly the principal the guard derived. -/
theorem get_profile_pass_through :
    (∀ p : Principal, getProfile p = p) ∧
    (∀ (secret : Nat) (hdr : Option Token) (now : Nat) (q : Principal),
        jwtGuard secret hdr now = Except.ok q →
        profileRoute secret hdr now = Except.ok q) := by
  refine ⟨fun p => rfl, ?_⟩
  intro secret hdr now q h
  unfold profileRoute protectedRoute
  rw [h]
  rfl

/-- C8 witness: a concrete verified principal passes through unchanged. -/
theorem get_profile_pass_through_witness :
    profileRoute 0 (some (issue 0 1 "a" Role.user 0)) 0 = Except.ok ⟨"a", Role.user⟩ :=
  get_profile_pass_through.2 0 (some (issue 0 1 "a" Role.user 0)) 0 ⟨"a", Role.user⟩ rfl

/-- C9: whenever the guard fails (missing, malformed or expired token), the
protected route returns the guard's error for every handler — the handler
is never consulted; on guard success the handler runs on the derived
Principal. -/
theorem guard_rejects_before_handler :
    (∀ (secret : Nat) (hdr : Option Token) (now : Nat) (e : AuthError),
        jwtGuard secret hdr now = Except.error e →
        ∀ (α : Type) (handler : Principal → α),
          protectedRoute secret hdr now handler = Except.error e) ∧
    (∀ (secret : Nat) (hdr : Option Token) (now : Nat) (p : Principal),
        jwtGuard secret hdr now = Except.ok p →
        ∀ (α : Type) (handler : Principal → α),
          protectedRoute secret hdr now handler = Except.ok (handler p)) := by
  constructor
  · intro secret hdr now e h α handler
    unfold protectedRoute
    rw [h]
  · intro secret hdr now p h α handler
    unfold protectedRoute
    rw [h]

/-- C9 witness: with no token presented, a concrete handler is bypassed and
the route rejects with `MissingCredentials`. -/
theorem guard_rejects_before_handler_witness :
    protectedRoute 0 none 0 (fun p => p.identifier) = Except.error AuthError.MissingCredentials :=
  guard_rejects_before_handler.1 0 none 0 AuthError.MissingCredentials rfl String
    (fun p => p.identifier)

/-- C10: the register endpoint carries no guard: its result is independent
of any presented token, it never fails with `MissingCredentials`, and it
runs for unauthenticated clients — unlike the profile route, which rejects
a missing token, and login, which is rejected by its credential-validation
guard before any token is issued. -/
theorem register_route_unguarded :
    (∀ (s : Store) (hdr1 hdr2 : Option Token) (identifier pw : String) (role : Role)
        (salt : Nat),
        registerRoute s hdr1 identifier pw role salt
          = registerRoute s hdr2 identifier pw role salt) ∧
    (∀ (s : Store) (hdr : Option Token) (identifier pw : String) (role : Role) (salt : Nat),
        (registerRoute s hdr identifier pw role salt).1
          ≠ Except.error AuthError.MissingCredentials) ∧
    (∀ (secret now : Nat), profileRoute secret none now
        = Except.error AuthError.MissingCredentials) ∧
    (∀ (s : Store) (secret ttl : Nat) (identifier pw : String) (now : Nat) (e : AuthError),
        validateUser s identifier pw = Except.error e →
        login s secret ttl identifier pw now = Except.error e) := by
  refine ⟨fun _ _ _ _ _ _ _ => rfl, ?_, fun _ _ => rfl, ?_⟩
  · intro s hdr identifier pw role salt
    cases hf : findByIdentifier s identifier with
    | none => simp [registerRoute, register, hf]
    | some r => simp [registerRoute, register, hf]
  · intro s secret ttl identifier pw now e h
    unfold login
    rw [h]

/-- C10 witness: a concrete register request with a token attached is not
rejected for missing credentials, while a concrete guarded login is
rejected by its credential validation. -/
theorem register_route_unguarded_witness :
    (registerRoute [] (some (issue 0 1 "a" Role.user 0)) "a" "b" Role.user 0).1
        ≠ Except.error AuthError.MissingCredentials ∧
    login [] 0 0 "a" "b" 0 = Except.error AuthError.InvalidCredentials :=
  ⟨register_route_unguarded.2.1 [] (some (issue 0 1 "a" Role.user 0)) "a" "b" Role.user 0,
    register_route_unguarded.2.2.2 [] 0 0 "a" "b" 0 AuthError.InvalidCredentials rfl⟩

end NestAuth
